import Mathlib

/-!
Verification of the MPC telemetry caller (`src/main.cpp`) of the
CarND-MPC-Project repository.  The per-tick telemetry handler is embedded as
pure real-valued functions; the missing `MPC::Solve` implementation (MPC.cpp
is not part of the snapshot) is modelled from the specification where a claim
needs it.  C++ `double` arithmetic is modelled by exact real arithmetic.
-/

open Real

noncomputable section

/-- `const double Lf = 2.67;` (main.cpp line 13). -/
def Lf : ℝ := 2.67

/-- `double deg2rad(double x) { return x * pi() / 180; }` (main.cpp line 17). -/
def deg2rad (x : ℝ) : ℝ := x * Real.pi / 180

/-- `polyeval` (main.cpp lines 36-42): the loop
`for i in [0, coeffs.size()): result += coeffs[i] * pow(x, i)`,
embedded as a left fold over the index range with `result = 0.0` initially. -/
def polyeval (coeffs : List ℝ) (x : ℝ) : ℝ :=
  (List.range coeffs.length).foldl (fun result i => result + coeffs.getD i 0 * x ^ i) 0

/-- The Vandermonde entries of `polyfit`'s design matrix, built by the same
recurrence as the loop in main.cpp lines 53-61: `A(j,0) = 1`,
`A(j,i+1) = A(j,i) * x(j)`. -/
def vanderEntry (x : ℝ) : ℕ → ℝ
  | 0 => 1
  | i + 1 => vanderEntry x i * x

/-- The design matrix `A` of `polyfit` (main.cpp lines 51-61):
`xvals.size()` rows, `order + 1` columns, `A(j,i) = xvals(j)^i`. -/
def designMatrix (xvals : List ℝ) (order : ℕ) :
    Matrix (Fin xvals.length) (Fin (order + 1)) ℝ :=
  fun j i => vanderEntry (xvals.getD j.1 0) i.1

/-- Eigen's `A.householderQr().solve(y)` (main.cpp lines 63-64), an external
library call returning the least-squares solution of `A·c = y` with one entry
per column of `A`.  In exact arithmetic, for a full-column-rank `A`, the
least-squares minimizer is the normal-equations solution
`(Aᵀ·A)⁻¹·Aᵀ·y`, which is the model used here; the claims under
verification depend only on the arity of the result, not its values. -/
def householderQrSolve {n m : ℕ} (A : Matrix (Fin n) (Fin m) ℝ) (y : Fin n → ℝ) :
    Fin m → ℝ :=
  Matrix.mulVec (A.transpose * A)⁻¹ (Matrix.mulVec A.transpose y)

/-- `polyfit` (main.cpp lines 47-66).  The asserted preconditions
`xvals.size() == yvals.size()` and `order >= 1 && order <= xvals.size() - 1`
(signed arithmetic, so `order + 1 ≤ xvals.size()`) abort the tick when they
fail; this is modelled by returning `none`. -/
def polyfit (xvals yvals : List ℝ) (order : ℕ) : Option (List ℝ) :=
  if xvals.length = yvals.length ∧ 1 ≤ order ∧ order + 1 ≤ xvals.length then
    some (List.ofFn fun i : Fin (order + 1) =>
      householderQrSolve (designMatrix xvals order) (fun j => yvals.getD j.1 0) i)
  else none

/-- One decoded telemetry message (main.cpp lines 88-95): the raw waypoint
lists and the scalar fields `x`, `y`, `psi`, `speed`, `steering_angle`,
`throttle`. -/
structure Telemetry where
  ptsx : List ℝ
  ptsy : List ℝ
  px : ℝ
  py : ℝ
  psi : ℝ
  v : ℝ
  delta : ℝ
  a : ℝ

/-- The vehicle-frame waypoint x coordinates `ptsx_v` (main.cpp lines 99-108):
a vector of `ptsx.size()` entries with
`ptsx_v[i] = (ptsx[i] - px)·cos ψ + (ptsy[i] - py)·sin ψ`. -/
def ptsxV (t : Telemetry) : List ℝ :=
  (List.range t.ptsx.length).map fun i =>
    (t.ptsx.getD i 0 - t.px) * Real.cos t.psi + (t.ptsy.getD i 0 - t.py) * Real.sin t.psi

/-- The vehicle-frame waypoint y coordinates `ptsy_v` (main.cpp lines 100-108):
a vector of `ptsy.size()` entries with
`ptsy_v[i] = (ptsy[i] - py)·cos ψ - (ptsx[i] - px)·sin ψ`. -/
def ptsyV (t : Telemetry) : List ℝ :=
  (List.range t.ptsy.length).map fun i =>
    (t.ptsy.getD i 0 - t.py) * Real.cos t.psi - (t.ptsx.getD i 0 - t.px) * Real.sin t.psi

/-- `double latency = 0.1;` (main.cpp line 113). -/
def latency : ℝ := 0.1

/-- `double x_v = 0;` (main.cpp line 114). -/
def x_v : ℝ := 0

/-- `double y_v = 0;` (main.cpp line 115). -/
def y_v : ℝ := 0

/-- `double psi_v = 0;` (main.cpp line 116). -/
def psi_v : ℝ := 0

/-- `double cte = polyeval(coeffs, 0) - y_v;` (main.cpp line 119). -/
def cte0 (coeffs : List ℝ) : ℝ := polyeval coeffs 0 - y_v

/-- The derivative expression `coeffs[1] + 2·coeffs[2]·x + 3·coeffs[3]·x·x`
used at main.cpp lines 120 and 128. -/
def fderiv3 (coeffs : List ℝ) (x : ℝ) : ℝ :=
  coeffs.getD 1 0 + 2 * coeffs.getD 2 0 * x + 3 * coeffs.getD 3 0 * x * x

/-- `double epsi = psi_v - atan(coeffs[1] + 2*coeffs[2]*x_v + 3*coeffs[3]*x_v*x_v);`
(main.cpp line 120). -/
def epsi0 (coeffs : List ℝ) : ℝ := psi_v - Real.arctan (fderiv3 coeffs x_v)

/-- `double late_x = x_v + v * cos(psi_v) * latency;` (main.cpp line 123). -/
def lateX (v : ℝ) : ℝ := x_v + v * Real.cos psi_v * latency

/-- `double late_y = y_v + v * sin(psi_v) * latency;` (main.cpp line 124). -/
def lateY (v : ℝ) : ℝ := y_v + v * Real.sin psi_v * latency

/-- `double late_psi = psi_v - v / Lf * delta * latency;` (main.cpp line 125). -/
def latePsi (v delta : ℝ) : ℝ := psi_v - v / Lf * delta * latency

/-- `double late_v = v + a * latency;` (main.cpp line 126). -/
def lateV (v a : ℝ) : ℝ := v + a * latency

/-- `double late_cte = cte + v * sin(psi_v) * latency;` (main.cpp line 127). -/
def lateCte (coeffs : List ℝ) (v : ℝ) : ℝ := cte0 coeffs + v * Real.sin psi_v * latency

/-- `double late_epsi = late_psi - atan(coeffs[1] + 2*coeffs[2]*late_x +
3*coeffs[3]*late_x*late_x) - (v / Lf * delta * latency);` (main.cpp line 128). -/
def lateEpsi (coeffs : List ℝ) (v delta : ℝ) : ℝ :=
  latePsi v delta - Real.arctan (fderiv3 coeffs (lateX v)) - (v / Lf * delta * latency)

/-- `Eigen::VectorXd state(6); state << late_x, late_y, late_psi, late_v,
late_cte, late_epsi;` (main.cpp lines 130-131), the state handed to
`mpc.Solve`. -/
def tickState (coeffs : List ℝ) (v delta a : ℝ) : List ℝ :=
  [lateX v, lateY v, latePsi v delta, lateV v a, lateCte coeffs v, lateEpsi coeffs v delta]

/-- `double steer_value = vars[6];` then
`msgJson["steering_angle"] = -steer_value/deg2rad(25);`
(main.cpp lines 135 and 140). -/
def extractSteer (vars : List ℝ) : ℝ := -vars.getD 6 0 / deg2rad 25

/-- `double throttle_value = vars[7];` then
`msgJson["throttle"] = throttle_value;` (main.cpp lines 136 and 141). -/
def extractThrottle (vars : List ℝ) : ℝ := vars.getD 7 0

/-- The commands one telemetry tick sends back (main.cpp lines 99-141),
parameterized by the `MPC::Solve` implementation (`solve state coeffs`
returns the solution vector `vars`); `none` when the `polyfit` assertions
abort the tick before `Solve` is reached. -/
def tickCommands (solve : List ℝ → List ℝ → List ℝ) (t : Telemetry) : Option (ℝ × ℝ) :=
  (polyfit (ptsxV t) (ptsyV t) 3).map fun coeffs =>
    (extractSteer (solve (tickState coeffs t.v t.delta t.a) coeffs),
     extractThrottle (solve (tickState coeffs t.v t.delta t.a) coeffs))

/-- Observable effects of one telemetry tick, in program order. -/
inductive Effect where
  | solveCall : List ℝ → List ℝ → Effect
  | sleep : ℕ → Effect
  | send : Effect

/-- The effect trace of one telemetry tick (main.cpp lines 111-167):
`mpc.Solve(state, coeffs)` (line 133), then
`this_thread::sleep_for(chrono::milliseconds(100))` (line 166), then
`ws.send(...)` (line 167); empty when the `polyfit` assertions abort the
tick first. -/
def tickTrace (solve : List ℝ → List ℝ → List ℝ) (t : Telemetry) : List Effect :=
  (polyfit (ptsxV t) (ptsyV t) 3).elim [] fun coeffs =>
    [Effect.solveCall (tickState coeffs t.v t.delta t.a) coeffs,
     Effect.sleep 100, Effect.send]

/-- Modelled from the spec: the Kinematic Model of §4.1 (its in-repo home,
MPC.cpp, is not part of the snapshot), restricted to the first four state
components:
`x' = x + v·cos ψ·dt`, `y' = y + v·sin ψ·dt`, `ψ' = ψ − (v/Lf)·δ·dt`,
`v' = v + a·dt`. -/
def kinStep (x y psi v delta a dt : ℝ) : ℝ × ℝ × ℝ × ℝ :=
  (x + v * Real.cos psi * dt, y + v * Real.sin psi * dt,
   psi - v / Lf * delta * dt, v + a * dt)

/-- The cross-track-error update claimed by the spec (§4.1,
`cte' = f(x) − y + v·sin(eψ)·dt`), evaluated as claim C3 reads it: at the
pre-projection vehicle-frame position `x = x_v = 0`, `y = y_v = 0` and the
pre-projection heading error `eψ = epsi0 coeffs`. -/
def specCteUpdate (coeffs : List ℝ) (v : ℝ) : ℝ :=
  polyeval coeffs x_v - y_v + v * Real.sin (epsi0 coeffs) * latency

/-- The heading-error update claimed by the spec (§4.1,
`eψ' = ψ − ψdes + (−(v/Lf)·δ·dt)` with `ψdes = atan(f′(x))`), evaluated as
claim C4 reads it: at the pre-projection vehicle-frame heading
`ψ = psi_v = 0` and position `x = x_v = 0`, with exactly one
`−(v/Lf)·δ·dt` correction term. -/
def specEpsiUpdate (coeffs : List ℝ) (v delta : ℝ) : ℝ :=
  psi_v - Real.arctan (fderiv3 coeffs x_v) + (-(v / Lf * delta * latency))

/-- Modelled from the spec: the box constraints of `MPC::Solve` (§4.3, with
MPC.cpp not in the snapshot): the first actuation transition sits at
positions 6 and 7 of the returned vector, the steering angle is constrained
to `[−max_steer, max_steer]` with `max_steer = deg2rad 25` (§8), and the
acceleration to `[−1, 1]`. -/
def SolveWithinBounds (solve : List ℝ → List ℝ → List ℝ) : Prop :=
  ∀ s c, |(solve s c).getD 6 0| ≤ deg2rad 25 ∧ |(solve s c).getD 7 0| ≤ 1

/-- The coefficient list a successful tick obtains from `polyfit` of the
transformed waypoints at order 3. -/
def fitCoeffs (t : Telemetry) : List ℝ :=
  List.ofFn fun i : Fin 4 =>
    householderQrSolve (designMatrix (ptsxV t) 3) (fun j => (ptsyV t).getD j.1 0) i

/-- A trivial stand-in `Solve` used to instantiate hypotheses at concrete
inputs: it returns the all-zero solution vector. -/
def solve0 : List ℝ → List ℝ → List ℝ := fun _ _ => [0, 0, 0, 0, 0, 0, 0, 0]

/-- A concrete telemetry message with four waypoints. -/
def t0 : Telemetry :=
  { ptsx := [0, 1, 2, 3], ptsy := [0, 0, 0, 0],
    px := 0, py := 0, psi := 0, v := 0, delta := 0, a := 0 }

/-- A concrete telemetry message with only three waypoints. -/
def t1 : Telemetry :=
  { ptsx := [0, 1, 2], ptsy := [0, 1, 2],
    px := 0, py := 0, psi := 0, v := 0, delta := 0, a := 0 }

/- ### Helper lemmas -/

lemma length_ptsxV (t : Telemetry) : (ptsxV t).length = t.ptsx.length := by
  simp [ptsxV]

lemma length_ptsyV (t : Telemetry) : (ptsyV t).length = t.ptsy.length := by
  simp [ptsyV]

lemma polyfit_eq_some (t : Telemetry) (h1 : t.ptsx.length = t.ptsy.length)
    (h2 : 4 ≤ t.ptsx.length) :
    polyfit (ptsxV t) (ptsyV t) 3 = some (fitCoeffs t) := by
  unfold polyfit
  rw [if_pos]
  · rfl
  · refine ⟨?_, by norm_num, ?_⟩
    · rw [length_ptsxV, length_ptsyV, h1]
    · rw [length_ptsxV]; omega

lemma polyfit_eq_none (xvals yvals : List ℝ)
    (h : ¬ (xvals.length = yvals.length ∧ 1 ≤ 3 ∧ 3 + 1 ≤ xvals.length)) :
    polyfit xvals yvals 3 = none := by
  unfold polyfit
  rw [if_neg h]

lemma foldl_range_add (f : ℕ → ℝ) (n : ℕ) (r : ℝ) :
    (List.range n).foldl (fun acc i => acc + f i) r = r + ∑ i ∈ Finset.range n, f i := by
  induction n generalizing r with
  | zero => simp
  | succ n ih =>
      rw [List.range_succ, List.foldl_append, ih, Finset.sum_range_succ]
      simp [ih]
      ring

lemma polyeval_eq_sum (cs : List ℝ) (x : ℝ) :
    polyeval cs x = ∑ i ∈ Finset.range cs.length, cs.getD i 0 * x ^ i := by
  unfold polyeval
  rw [foldl_range_add]
  simp

lemma polyeval_at_zero (cs : List ℝ) : polyeval cs 0 = cs.getD 0 0 := by
  rw [polyeval_eq_sum]
  cases cs with
  | nil => simp
  | cons c rest =>
      rw [List.length_cons]
      rw [Finset.sum_eq_single_of_mem 0 (Finset.mem_range.mpr (Nat.succ_pos _))]
      · simp
      · intro i _ hi
        simp [zero_pow hi]

lemma tickTrace_eq (solve : List ℝ → List ℝ → List ℝ) (t : Telemetry)
    (h1 : t.ptsx.length = t.ptsy.length) (h2 : 4 ≤ t.ptsx.length) :
    tickTrace solve t
      = [Effect.solveCall (tickState (fitCoeffs t) t.v t.delta t.a) (fitCoeffs t),
         Effect.sleep 100, Effect.send] := by
  unfold tickTrace
  rw [polyfit_eq_some t h1 h2]
  rfl

lemma tickCommands_eq (solve : List ℝ → List ℝ → List ℝ) (t : Telemetry)
    (h1 : t.ptsx.length = t.ptsy.length) (h2 : 4 ≤ t.ptsx.length) :
    tickCommands solve t
      = some (extractSteer (solve (tickState (fitCoeffs t) t.v t.delta t.a) (fitCoeffs t)),
              extractThrottle (solve (tickState (fitCoeffs t) t.v t.delta t.a) (fitCoeffs t))) := by
  unfold tickCommands
  rw [polyfit_eq_some t h1 h2]
  rfl

lemma deg2rad_25_pos : (0 : ℝ) < deg2rad 25 := by
  unfold deg2rad
  positivity

/- ### Claims -/

/-- Claim C2: the first four components (x, y, ψ, v) of the state handed to
`MPC::Solve` are obtained from the vehicle-frame state (0, 0, 0, v) and the
last reported actuation (δ, a) by exactly one step of the kinematic model
with dt = 0.1 and Lf = 2.67. -/
theorem projection_is_one_kinematic_step (coeffs : List ℝ) (v delta a : ℝ) :
    (tickState coeffs v delta a).take 4 =
      [(kinStep 0 0 0 v delta a 0.1).1, (kinStep 0 0 0 v delta a 0.1).2.1,
       (kinStep 0 0 0 v delta a 0.1).2.2.1, (kinStep 0 0 0 v delta a 0.1).2.2.2]
    ∧ Lf = 2.67 ∧ latency = 0.1 := by
  refine ⟨?_, rfl, rfl⟩
  simp [tickState, kinStep, lateX, lateY, latePsi, lateV, x_v, y_v, psi_v, latency]

/-- Claim C3, counterexample: for coefficients [0, 1, 0, 0] and speed 1 the
cte component handed to `Solve` is 0, while the spec formula
f(x) − y + v·sin(eψ)·dt evaluates to −sin(arctan 1)·0.1 ≠ 0. -/
theorem latency_cte_counterexample :
    lateCte [0, 1, 0, 0] 1 ≠ specCteUpdate [0, 1, 0, 0] 1 := by
  have h1 : lateCte [0, 1, 0, 0] 1 = 0 := by
    simp [lateCte, cte0, y_v, psi_v, polyeval_at_zero]
  have hepsi : epsi0 [0, 1, 0, 0] = -Real.arctan 1 := by
    unfold epsi0 psi_v x_v
    norm_num [fderiv3]
  have heq : specCteUpdate [0, 1, 0, 0] 1 = -(Real.sin (Real.arctan 1) * 0.1) := by
    unfold specCteUpdate x_v y_v latency
    rw [hepsi, Real.sin_neg, polyeval_at_zero]
    norm_num
  have h3 : 0 < Real.sin (Real.arctan 1) := by
    rw [Real.sin_arctan]
    positivity
  have h4 : -(Real.sin (Real.arctan 1) * 0.1) < 0 := by nlinarith
  rw [h1, heq]
  exact (ne_of_lt h4).symm

/-- Claim C3 (amended): the cte component handed to `Solve` equals
f(x) − y + v·sin(ψ)·dt with ψ the pre-projection vehicle-frame heading
(psi_v = 0), not the heading error eψ; consequently it equals the fitted
constant coefficient coeffs[0]. -/
theorem latency_cte_uses_heading_zero (coeffs : List ℝ) (v : ℝ) :
    lateCte coeffs v = polyeval coeffs x_v - y_v + v * Real.sin psi_v * latency
    ∧ lateCte coeffs v = coeffs.getD 0 0 := by
  constructor
  · rfl
  · simp [lateCte, cte0, y_v, psi_v, polyeval_at_zero]

/-- Claim C4, counterexample: for coefficients [0, 0, 0, 0], speed 1 and
steering 1 the heading-error component handed to `Solve` is −2·(0.1/2.67),
while the spec formula ψ − ψdes + (−(v/Lf)·δ·dt) evaluates to −0.1/2.67. -/
theorem latency_epsi_counterexample :
    lateEpsi [0, 0, 0, 0] 1 1 ≠ specEpsiUpdate [0, 0, 0, 0] 1 1 := by
  norm_num [lateEpsi, specEpsiUpdate, latePsi, lateX, fderiv3, x_v, psi_v,
    latency, Lf, Real.arctan_zero]

/-- Claim C4 (amended): the heading-error component handed to `Solve` equals
late_psi − atan(f′(late_x)) − (v/Lf)·δ·dt, where late_psi already contains
one −(v/Lf)·δ·dt term; i.e. it contains two −(v/Lf)·δ·dt actuation
corrections beyond −ψdes, and ψdes is evaluated at the projected x. -/
theorem latency_epsi_two_corrections (coeffs : List ℝ) (v delta : ℝ) :
    lateEpsi coeffs v delta
      = psi_v - Real.arctan (fderiv3 coeffs (lateX v)) - 2 * (v / Lf * delta * latency)
    ∧ latePsi v delta = psi_v - v / Lf * delta * latency := by
  constructor
  · unfold lateEpsi latePsi
    ring
  · rfl

/-- Claim C9: the latency projection leaves the cross-track error unchanged —
the cte handed to `Solve` equals the pre-projection cte, which is the fitted
constant coefficient coeffs[0], because the heading used in the
v·sin(ψ)·latency correction is the literal constant 0. -/
theorem latency_preserves_cte (coeffs : List ℝ) (v : ℝ) :
    lateCte coeffs v = cte0 coeffs ∧ cte0 coeffs = coeffs.getD 0 0 := by
  constructor
  · simp [lateCte, psi_v]
  · simp [cte0, y_v, polyeval_at_zero]

/-- Claim C1: for every `Solve` respecting the spec's box constraints and
every telemetry tick that produces a command, both the steer and the throttle
sent back lie in [−1, 1], regardless of the magnitude of the input state. -/
theorem commands_bounded (solve : List ℝ → List ℝ → List ℝ)
    (hb : SolveWithinBounds solve) (t : Telemetry) (steer throttle : ℝ)
    (h : tickCommands solve t = some (steer, throttle)) :
    -1 ≤ steer ∧ steer ≤ 1 ∧ -1 ≤ throttle ∧ throttle ≤ 1 := by
  cases hp : polyfit (ptsxV t) (ptsyV t) 3 with
  | none =>
      unfold tickCommands at h
      rw [hp] at h
      cases h
  | some coeffs =>
      unfold tickCommands at h
      rw [hp] at h
      simp only [Option.map_some', Option.some.injEq, Prod.mk.injEq] at h
      obtain ⟨hs, ht⟩ := h
      obtain ⟨h6, h7⟩ := hb (tickState coeffs t.v t.delta t.a) coeffs
      have hsteer : |steer| ≤ 1 := by
        rw [← hs]
        unfold extractSteer
        rw [abs_div, abs_neg, abs_of_pos deg2rad_25_pos]
        exact (div_le_one deg2rad_25_pos).mpr h6
      have hthrottle : |throttle| ≤ 1 := by
        rw [← ht]
        exact h7
      obtain ⟨hs1, hs2⟩ := abs_le.mp hsteer
      obtain ⟨ht1, ht2⟩ := abs_le.mp hthrottle
      exact ⟨hs1, hs2, ht1, ht2⟩

/-- Witness for claim C1 at the concrete telemetry `t0` and the all-zero
`Solve` stand-in. -/
theorem commands_bounded_witness :
    -1 ≤ extractSteer (solve0 (tickState (fitCoeffs t0) t0.v t0.delta t0.a) (fitCoeffs t0)) ∧
      extractSteer (solve0 (tickState (fitCoeffs t0) t0.v t0.delta t0.a) (fitCoeffs t0)) ≤ 1 ∧
      -1 ≤ extractThrottle (solve0 (tickState (fitCoeffs t0) t0.v t0.delta t0.a) (fitCoeffs t0)) ∧
      extractThrottle (solve0 (tickState (fitCoeffs t0) t0.v t0.delta t0.a) (fitCoeffs t0)) ≤ 1 :=
  commands_bounded solve0
    (fun s c => by
      constructor
      · simp only [solve0]
        norm_num
        exact le_of_lt deg2rad_25_pos
      · simp only [solve0]
        norm_num)
    t0 _ _ (tickCommands_eq solve0 t0 rfl (by decide))

/-- Claim C5: the command sent is a pure read of the solution's first
actuation transition: steer = −vars[6]/deg2rad(25) (mapping a δ within
±25° into [−1, 1] with negated sign) and throttle = vars[7] unchanged. -/
theorem command_is_pure_read (solve : List ℝ → List ℝ → List ℝ) (t : Telemetry)
    (steer throttle : ℝ) (h : tickCommands solve t = some (steer, throttle)) :
    ∃ coeffs, polyfit (ptsxV t) (ptsyV t) 3 = some coeffs ∧
      steer = -(solve (tickState coeffs t.v t.delta t.a) coeffs).getD 6 0 / deg2rad 25 ∧
      throttle = (solve (tickState coeffs t.v t.delta t.a) coeffs).getD 7 0 ∧
      (|(solve (tickState coeffs t.v t.delta t.a) coeffs).getD 6 0| ≤ deg2rad 25 →
        |steer| ≤ 1) ∧
      (0 < (solve (tickState coeffs t.v t.delta t.a) coeffs).getD 6 0 → steer < 0) := by
  cases hp : polyfit (ptsxV t) (ptsyV t) 3 with
  | none =>
      unfold tickCommands at h
      rw [hp] at h
      cases h
  | some coeffs =>
      unfold tickCommands at h
      rw [hp] at h
      simp only [Option.map_some', Option.some.injEq, Prod.mk.injEq] at h
      obtain ⟨hs, ht⟩ := h
      refine ⟨coeffs, rfl, hs.symm, ht.symm, ?_, ?_⟩
      · intro h6
        rw [← hs]
        unfold extractSteer
        rw [abs_div, abs_neg, abs_of_pos deg2rad_25_pos]
        exact (div_le_one deg2rad_25_pos).mpr h6
      · intro h6
        rw [← hs]
        unfold extractSteer
        exact div_neg_of_neg_of_pos (neg_neg_of_pos h6) deg2rad_25_pos

/-- Witness for claim C5 at the concrete telemetry `t0` and the all-zero
`Solve` stand-in. -/
theorem command_is_pure_read_witness :
    ∃ coeffs, polyfit (ptsxV t0) (ptsyV t0) 3 = some coeffs ∧
      extractSteer (solve0 (tickState (fitCoeffs t0) t0.v t0.delta t0.a) (fitCoeffs t0))
        = -(solve0 (tickState coeffs t0.v t0.delta t0.a) coeffs).getD 6 0 / deg2rad 25 ∧
      extractThrottle (solve0 (tickState (fitCoeffs t0) t0.v t0.delta t0.a) (fitCoeffs t0))
        = (solve0 (tickState coeffs t0.v t0.delta t0.a) coeffs).getD 7 0 ∧
      (|(solve0 (tickState coeffs t0.v t0.delta t0.a) coeffs).getD 6 0| ≤ deg2rad 25 →
        |extractSteer (solve0 (tickState (fitCoeffs t0) t0.v t0.delta t0.a) (fitCoeffs t0))| ≤ 1) ∧
      (0 < (solve0 (tickState coeffs t0.v t0.delta t0.a) coeffs).getD 6 0 →
        extractSteer (solve0 (tickState (fitCoeffs t0) t0.v t0.delta t0.a) (fitCoeffs t0)) < 0) :=
  command_is_pure_read solve0 t0 _ _ (tickCommands_eq solve0 t0 rfl (by decide))

/-- Claim C6: the coefficient vector passed to `MPC::Solve` has exactly 4
entries (a degree-3 fit of that tick's transformed waypoints), interpreted
lowest-degree first: polyeval(coeffs, x) = Σᵢ coeffs[i]·xⁱ. -/
theorem coeffs_arity_and_lowest_degree_first (t : Telemetry) (coeffs : List ℝ)
    (h : polyfit (ptsxV t) (ptsyV t) 3 = some coeffs) :
    coeffs.length = 4 ∧
      ∀ x : ℝ, polyeval coeffs x
        = ∑ i ∈ Finset.range coeffs.length, coeffs.getD i 0 * x ^ i := by
  have hlen : coeffs.length = 4 := by
    unfold polyfit at h
    by_cases hc : (ptsxV t).length = (ptsyV t).length ∧ 1 ≤ 3 ∧ 3 + 1 ≤ (ptsxV t).length
    · rw [if_pos hc] at h
      obtain ⟨rfl⟩ := h
      simp
    · rw [if_neg hc] at h
      cases h
  exact ⟨hlen, fun x => polyeval_eq_sum coeffs x⟩

/-- Witness for claim C6 at the concrete telemetry `t0`. -/
theorem coeffs_arity_witness :
    (fitCoeffs t0).length = 4 ∧
      polyeval (fitCoeffs t0) 1
        = ∑ i ∈ Finset.range (fitCoeffs t0).length, (fitCoeffs t0).getD i 0 * 1 ^ i := by
  have h := coeffs_arity_and_lowest_degree_first t0 (fitCoeffs t0)
    (polyfit_eq_some t0 rfl (by decide))
  exact ⟨h.1, h.2 1⟩

/-- Claim C7: the state vector passed to `MPC::Solve` has exactly 6
components, ordered (x, y, ψ, v, cte, eψ), built fresh for the tick from the
vehicle-frame origin state x_v = y_v = psi_v = 0. -/
theorem state_arity_order_frame (solve : List ℝ → List ℝ → List ℝ) (t : Telemetry)
    (s c : List ℝ) (h : Effect.solveCall s c ∈ tickTrace solve t) :
    s.length = 6 ∧
      (∃ coeffs, polyfit (ptsxV t) (ptsyV t) 3 = some coeffs ∧
        s = [lateX t.v, lateY t.v, latePsi t.v t.delta, lateV t.v t.a,
             lateCte coeffs t.v, lateEpsi coeffs t.v t.delta]) ∧
      x_v = 0 ∧ y_v = 0 ∧ psi_v = 0 := by
  cases hp : polyfit (ptsxV t) (ptsyV t) 3 with
  | none =>
      have h2 : Effect.solveCall s c ∈ ([] : List Effect) := by
        unfold tickTrace at h
        rw [hp] at h
        exact h
      cases h2
  | some coeffs =>
      have h2 : Effect.solveCall s c ∈
          [Effect.solveCall (tickState coeffs t.v t.delta t.a) coeffs,
           Effect.sleep 100, Effect.send] := by
        unfold tickTrace at h
        rw [hp] at h
        exact h
      simp only [List.mem_cons] at h2
      rcases h2 with h2 | h2 | h2 | h2
      · injection h2 with hs hc
        subst hs
        exact ⟨by simp [tickState], ⟨coeffs, rfl, rfl⟩, rfl, rfl, rfl⟩
      · cases h2
      · cases h2
      · cases h2

/-- Witness for claim C7 at the concrete telemetry `t0`. -/
theorem state_arity_witness :
    (tickState (fitCoeffs t0) t0.v t0.delta t0.a).length = 6 ∧
      (∃ coeffs, polyfit (ptsxV t0) (ptsyV t0) 3 = some coeffs ∧
        tickState (fitCoeffs t0) t0.v t0.delta t0.a
          = [lateX t0.v, lateY t0.v, latePsi t0.v t0.delta, lateV t0.v t0.a,
             lateCte coeffs t0.v, lateEpsi coeffs t0.v t0.delta]) ∧
      x_v = 0 ∧ y_v = 0 ∧ psi_v = 0 :=
  state_arity_order_frame solve0 t0 _ _
    (by rw [tickTrace_eq solve0 t0 rfl (by decide)]
        exact List.mem_cons_self _ _)

/-- Claim C8: on every tick that reaches the command computation, the effect
order is: solve, then a fixed 100 ms sleep, then the send over the socket;
and this sleep is in addition to the 0.1 s latency already applied in the
state projection handed to `Solve`. -/
theorem sleep_between_solve_and_send (solve : List ℝ → List ℝ → List ℝ)
    (t : Telemetry) (coeffs : List ℝ)
    (h : polyfit (ptsxV t) (ptsyV t) 3 = some coeffs) :
    tickTrace solve t
      = [Effect.solveCall (tickState coeffs t.v t.delta t.a) coeffs,
         Effect.sleep 100, Effect.send]
    ∧ lateV t.v t.a = t.v + t.a * 0.1 ∧ latency = 0.1 := by
  refine ⟨?_, rfl, rfl⟩
  unfold tickTrace
  rw [h]
  rfl

/-- Witness for claim C8 at the concrete telemetry `t0`. -/
theorem sleep_between_witness :
    tickTrace solve0 t0
      = [Effect.solveCall (tickState (fitCoeffs t0) t0.v t0.delta t0.a) (fitCoeffs t0),
         Effect.sleep 100, Effect.send]
    ∧ lateV t0.v t0.a = t0.v + t0.a * 0.1 ∧ latency = 0.1 :=
  sleep_between_solve_and_send solve0 t0 (fitCoeffs t0)
    (polyfit_eq_some t0 rfl (by decide))

/-- Claim C10: a telemetry message with fewer than 4 waypoints, or with
mismatched ptsx/ptsy lengths, violates the `polyfit` assertions and the tick
aborts before `MPC::Solve` is reached: no solve call appears in the trace and
no command is produced. -/
theorem few_waypoints_abort (solve : List ℝ → List ℝ → List ℝ) (t : Telemetry)
    (h : t.ptsx.length < 4 ∨ t.ptsx.length ≠ t.ptsy.length) :
    polyfit (ptsxV t) (ptsyV t) 3 = none ∧ tickTrace solve t = [] ∧
      tickCommands solve t = none := by
  have hn : polyfit (ptsxV t) (ptsyV t) 3 = none := by
    apply polyfit_eq_none
    rw [length_ptsxV, length_ptsyV]
    rcases h with h | h
    · rintro ⟨-, -, h4⟩
      omega
    · rintro ⟨he, -, -⟩
      exact h he
  refine ⟨hn, ?_, ?_⟩
  · unfold tickTrace
    rw [hn]
    rfl
  · unfold tickCommands
    rw [hn]
    rfl

/-- Witness for claim C10 at the concrete three-waypoint telemetry `t1`. -/
theorem few_waypoints_abort_witness :
    polyfit (ptsxV t1) (ptsyV t1) 3 = none ∧ tickTrace solve0 t1 = [] ∧
      tickCommands solve0 t1 = none :=
  few_waypoints_abort solve0 t1 (Or.inl (by decide))

end
